import Mathlib

/-!
Verification of the `wt` work-timer (src/wt.py) against its specification.

Shallow embedding conventions:
* Timestamps: the source stores timestamps as strings in the format
  `%Y-%m-%d %H:%M` (minute resolution) and converts differences to whole
  minutes via `delta_minutes`.  We model a timestamp as an `Int` (minutes
  since an arbitrary epoch); the empty string `""` is modelled as `none`
  of `Option Int`.
* Python `int`s are `Int`.
* A command's effect is modelled as a function from the loaded `Timer`
  (or the persisted `Option Timer`, `none` = no state file) to the final
  persisted state.  Paths on which the source raises or `quit()`s before
  any further write leave the persisted state as it was.
-/

/-- `Status` enum of wt.py (`stopped` / `paused` / `running`). -/
inductive Status where
  | Stopped
  | Paused
  | Running
deriving DecidableEq

/-- `Mode` enum of wt.py (output verbosity; not part of the accounting core). -/
inductive Mode where
  | Silent
  | Normal
  | Verbose
deriving DecidableEq

/-- The `"type"` key of a timeline entry: the source uses the strings
`"work"` and `"break"`; `brk` stands for `"break"`. -/
inductive EntryType where
  | work
  | brk
deriving DecidableEq

/-- A timeline entry dict of wt.py: `{"type", "minutes"}` for breaks,
`{"type", "minutes", "paused_minutes", "total_minutes"}` for work entries.
Break dicts carry no `paused_minutes`/`total_minutes` keys; the source reads
them with `.get(key, 0)`, so they are modelled as fields that are `0` for
break entries. -/
structure TimelineEntry where
  type : EntryType
  minutes : Int
  paused_minutes : Int := 0
  total_minutes : Int := 0
deriving DecidableEq

/-- The `Timer` record of wt.py (persisted state).  Field names follow the
source; timestamp strings are modelled as `Option Int` (minutes). -/
structure Timer where
  status : Status := Status.Stopped
  start_datetime_str : Option Int := none
  stop_datetime_str : Option Int := none
  paused_minutes : Int := 0
  mode : Mode := Mode.Silent
  timeline : List TimelineEntry := []
  day_start : Option Int := none
  cycle_start_datetime_str : Option Int := none
deriving DecidableEq

/-- `Timer()` with all defaults, as created by `reset()`. -/
def freshTimer : Timer := {}

/-- `delta_minutes(start, now)`: whole minutes from `start` to `now`.
At minute resolution the Python floor division is exact. -/
def delta_minutes (start now : Int) : Int := now - start

/-- `Timer.completed_minutes`: sum of `minutes` over work entries. -/
def completed_minutes (t : Timer) : Int :=
  t.timeline.foldl (fun total e => if e.type = EntryType.work then total + e.minutes else total) 0

/-- Numeric value of a digit string, as Python `int()` on the character list. -/
def digitsVal (cs : List Char) : Nat :=
  cs.foldl (fun a c => a * 10 + (c.toNat - 48)) 0

/-- Python `str.isdigit()` (restricted to ASCII digits, which is all the
program ever feeds it): nonempty and all characters digits. -/
def pyIsDigit (s : String) : Bool :=
  !s.toList.isEmpty && s.toList.all Char.isDigit

/-- `hour_minute_to_minutes(hours, minutes) = hours * 60 + minutes`. -/
def hour_minute_to_minutes (hours minutes : Nat) : Int :=
  (hours : Int) * 60 + (minutes : Int)

/-- `string_time_to_minutes(time)`: length 4 = HHMM, length 3 = HMM,
lengths 2 and 1 = minutes only, any other length falls through with
`hour = minute = 0`. -/
def string_time_to_minutes (time : String) : Int :=
  let cs := time.toList
  match cs.length with
  | 4 => hour_minute_to_minutes (digitsVal (cs.take 2)) (digitsVal (cs.drop 2))
  | 3 => hour_minute_to_minutes (digitsVal (cs.take 1)) (digitsVal (cs.drop 1))
  | 2 => (digitsVal cs : Int)
  | 1 => (digitsVal cs : Int)
  | _ => 0

/-- `validate_timestring_or_quit(time)` as a predicate: `false` means the
command quits.  Rejects unless the string is 1-4 digits, and (when at least
two characters long) the last two digits, `time[-2:]`, are at most 59. -/
def validate_timestring (time : String) : Bool :=
  let cs := time.toList
  if cs.length < 1 ∨ cs.length > 4 ∨ ¬ cs.all Char.isDigit = true then false
  else if 2 ≤ cs.length ∧ 59 < digitsVal (cs.drop (cs.length - 2)) then false
  else true

/-- Modelled from the spec: the spec's own reading of time values,
"digit strings of length 1-4 interpreted as `H`, `MM`, `HMM`, or `HHMM`" -
i.e. a single digit is a number of HOURS.  Used only to compare the spec's
words with `string_time_to_minutes` (which treats a single digit as
minutes). -/
def spec_time_to_minutes (time : String) : Int :=
  let cs := time.toList
  match cs.length with
  | 4 => hour_minute_to_minutes (digitsVal (cs.take 2)) (digitsVal (cs.drop 2))
  | 3 => hour_minute_to_minutes (digitsVal (cs.take 1)) (digitsVal (cs.drop 1))
  | 2 => (digitsVal cs : Int)
  | 1 => hour_minute_to_minutes (digitsVal cs) 0
  | _ => 0

/-- `calculate_current_minutes(timer)`: work minutes of the open cycle,
`max(0, total_elapsed - total_paused)`.  While `Paused` the source parses
`start_datetime_str`; an empty string there would raise in Python
(unreachable state), modelled as contributing `0`. -/
def calculate_current_minutes (now : Int) (t : Timer) : Int :=
  match t.cycle_start_datetime_str with
  | none => 0
  | some cs =>
    if t.status = Status.Stopped then 0
    else
      let total_elapsed := delta_minutes cs now
      let total_paused :=
        if t.status = Status.Paused then
          t.paused_minutes + (match t.start_datetime_str with
            | some ps => delta_minutes ps now
            | none => 0)
        else t.paused_minutes
      max 0 (total_elapsed - total_paused)

/-- `stop()`, given the loaded timer; result is the final persisted state.
`none` models the (unreachable in practice) paths where the source would
raise while parsing an empty `cycle_start_datetime_str` /
`start_datetime_str`.  When already `Stopped` the command prints a message
and leaves the persisted state unchanged. -/
def stop (now : Int) (t : Timer) : Option Timer :=
  match t.status with
  | Status.Stopped => some t
  | st =>
    let total_pausedOpt : Option Int :=
      if st = Status.Paused then
        match t.start_datetime_str with
        | none => none
        | some ps => some (t.paused_minutes + delta_minutes ps now)
      else some t.paused_minutes
    match total_pausedOpt, t.cycle_start_datetime_str with
    | some total_paused, some cs =>
      let total_cycle_time := delta_minutes cs now
      let cycle_minutes0 := total_cycle_time - total_paused
      let cycle_minutes := if cycle_minutes0 < 0 then 0 else cycle_minutes0
      some { t with
        timeline := t.timeline ++
          [{ type := EntryType.work, minutes := cycle_minutes,
             paused_minutes := total_paused, total_minutes := total_cycle_time }],
        stop_datetime_str := some now,
        start_datetime_str := none,
        cycle_start_datetime_str := none,
        paused_minutes := 0,
        status := Status.Stopped }
    | _, _ => none

/-- `pause()`, given the loaded timer; when already `Paused` or `Stopped`
only a message is printed and nothing is saved. -/
def pause (now : Int) (t : Timer) : Timer :=
  match t.status with
  | Status.Running =>
    { t with start_datetime_str := some now, status := Status.Paused }
  | _ => t

/-- `start(start_time)`, from the loaded timer to the final persisted state.
Follows the source's order: (already-running early return), pause-resume
accounting, break-vs-backdate validation for a later cycle, break append,
marker updates, first save, then the backdate phase which re-saves (or
returns leaving the already-saved state).  A parse of an empty
`start_datetime_str` while `Paused` would raise in Python before any write,
so that path returns the loaded timer unchanged. -/
def start_loaded (now : Int) (startArg : Option String) (timer : Timer) : Timer :=
  if timer.status = Status.Running then timer
  else
    let pauseParsed : Option Timer :=
      if timer.status = Status.Paused then
        match timer.start_datetime_str with
        | none => none
        | some ps =>
          some { timer with paused_minutes := timer.paused_minutes + delta_minutes ps now }
      else some timer
    match pauseParsed with
    | none => timer
    | some t1 =>
      -- validation of a backdate on a subsequent cycle, before any mutation
      let reject1 : Bool :=
        match startArg, t1.stop_datetime_str with
        | some s, some stopT =>
          decide (t1.timeline.length ≠ 0) &&
          decide (delta_minutes stopT now < string_time_to_minutes s)
        | _, _ => false
      if reject1 then timer
      else
        let t2 : Timer :=
          match t1.stop_datetime_str with
          | some stopT =>
            { t1 with timeline := t1.timeline ++
                [{ type := EntryType.brk, minutes := delta_minutes stopT now }] }
          | none => t1
        let t3 := { t2 with stop_datetime_str := none, start_datetime_str := some now }
        let t4 := if t3.day_start = none then { t3 with day_start := some now } else t3
        let t5 :=
          if timer.status = Status.Stopped then
            { t4 with cycle_start_datetime_str := some now }
          else t4
        let t6 := { t5 with status := Status.Running }
        -- state `t6` is saved here (line 223 of the source)
        match startArg with
        | none => t6
        | some s =>
          let minutes := string_time_to_minutes s
          if t1.timeline.length = 0 then
            match t6.start_datetime_str with
            | some st =>
              let new_start := st - minutes
              if now ≤ new_start then t6   -- "Cannot backdate start that far.", t6 stays persisted
              else
                { t6 with start_datetime_str := some new_start,
                          cycle_start_datetime_str := some new_start,
                          day_start := some new_start }
            | none => t6
          else
            match t6.timeline.getLast? with
            | some lastE =>
              if lastE.type = EntryType.brk then
                if lastE.minutes - minutes < 0 then t6   -- safety check, t6 stays persisted
                else
                  { t6 with
                    timeline := t6.timeline.set (t6.timeline.length - 1)
                      { lastE with minutes := lastE.minutes - minutes },
                    start_datetime_str := some (st6 t6 - minutes),
                    cycle_start_datetime_str := some (st6 t6 - minutes) }
              else t6
            | none => t6
where
  /-- the reloaded `start_datetime_str` parsed at line 261 of the source;
  always `some now` at that point. -/
  st6 (t : Timer) : Int := (t.start_datetime_str).getD 0

/-- The `start` command over the persisted state (`none` = no state file):
an invalid time string quits before anything else; a missing state file is
initialised by `reset()` to a fresh timer before starting. -/
def start_cmd (now : Int) (startArg : Option String) (file : Option Timer) : Option Timer :=
  match startArg with
  | some s =>
    if validate_timestring s then
      some (start_loaded now (some s) (file.getD freshTimer))
    else file
  | none => some (start_loaded now none (file.getD freshTimer))

/-- The `stop` command over the persisted state: `load()` prints
"No timer exists." and quits when there is no state file. -/
def stop_cmd (now : Int) (file : Option Timer) : Except String (Option Timer) :=
  match file with
  | none => Except.error "No timer exists."
  | some t => Except.ok (some ((stop now t).getD t))

/-- The `pause` command over the persisted state. -/
def pause_cmd (now : Int) (file : Option Timer) : Except String (Option Timer) :=
  match file with
  | none => Except.error "No timer exists."
  | some t => Except.ok (some (pause now t))

/-- The `check` command: a pure read; returns the printed total minutes. -/
def check_cmd (now : Int) (file : Option Timer) : Except String Int :=
  match file with
  | none => Except.error "No timer exists."
  | some t =>
    let running_minutes :=
      if t.status = Status.Running ∨ t.status = Status.Paused then
        calculate_current_minutes now t
      else 0
    Except.ok (running_minutes + completed_minutes t)

/-- `next_timer()`: `stop()` first (a no-op message when already `Stopped`),
then append a 0-minute break and start the next cycle directly, clearing
`stop_datetime_str` without the usual break computation. -/
def next_timer (now : Int) (t : Timer) : Option Timer :=
  match stop now t with
  | none => none
  | some t1 =>
    let t2 : Timer := { t1 with timeline := t1.timeline ++
        [{ type := EntryType.brk, minutes := 0 }] }
    some { t2 with
      stop_datetime_str := none,
      start_datetime_str := some now,
      cycle_start_datetime_str := some now,
      paused_minutes := 0,
      status := Status.Running }

/-- The `add` / `sub` operation token of the `mod` commands.  The source
rejects any other string for `operation`; the closed type models the two
accepted tokens. -/
inductive Op where
  | add
  | sub
deriving DecidableEq

/-- `mod_duration(cycle_num, operation, time_str)`, from the loaded timer
to the final persisted state; `none` = the command printed an error and
returned without saving, leaving the persisted state unchanged.
Validation order follows the source: status, cycle number (a digit string,
hence a `Nat`), range `1..len(timeline)`, operation token, time digit
string; then the entry is resized, and for work entries `total_minutes`
is recomputed as `minutes + paused_minutes`. -/
def mod_duration (t : Timer) (cycle_num : Nat) (op : Op) (time_str : String) : Option Timer :=
  if t.status ≠ Status.Stopped then none
  else if cycle_num < 1 ∨ cycle_num > t.timeline.length then none
  else if pyIsDigit time_str = false then none
  else
    let minutes := string_time_to_minutes time_str
    let entry_idx := cycle_num - 1
    match t.timeline[entry_idx]? with
    | none => none
    | some entry =>
      match op with
      | Op.add =>
        let e1 : TimelineEntry := { entry with minutes := entry.minutes + minutes }
        let e2 : TimelineEntry :=
          if e1.type = EntryType.work then
            { e1 with total_minutes := e1.minutes + e1.paused_minutes }
          else e1
        some { t with timeline := t.timeline.set entry_idx e2 }
      | Op.sub =>
        let new_duration := entry.minutes - minutes
        if new_duration < 0 then none
        else
          let e1 : TimelineEntry := { entry with minutes := new_duration }
          let e2 : TimelineEntry :=
            if e1.type = EntryType.work then
              { e1 with total_minutes := e1.minutes + e1.paused_minutes }
            else e1
          some { t with timeline := t.timeline.set entry_idx e2 }

/-- The list surgery of `mod_drop` at (0-based) `idx`: a break flanked by
work entries merges them (the previous work entry's `minutes` becomes the
sum; its other keys are untouched), symmetrically for a work entry flanked
by breaks; otherwise the entry alone is removed.  The source pops
`idx + 1` and then `idx` after assigning the merged minutes. -/
def mod_drop_timeline (tl : List TimelineEntry) (idx : Nat) : List TimelineEntry :=
  let prevE := (tl[idx - 1]?).getD { type := EntryType.work, minutes := 0 }
  let nextE := (tl[idx + 1]?).getD { type := EntryType.work, minutes := 0 }
  if (tl[idx]?).map TimelineEntry.type = some EntryType.brk then
    if 0 < idx ∧ (tl[idx - 1]?).map TimelineEntry.type = some EntryType.work
        ∧ idx < tl.length - 1
        ∧ (tl[idx + 1]?).map TimelineEntry.type = some EntryType.work then
      (((tl.set (idx - 1) { prevE with minutes := prevE.minutes + nextE.minutes }).eraseIdx
          (idx + 1)).eraseIdx idx)
    else tl.eraseIdx idx
  else if (tl[idx]?).map TimelineEntry.type = some EntryType.work then
    if 0 < idx ∧ (tl[idx - 1]?).map TimelineEntry.type = some EntryType.brk
        ∧ idx < tl.length - 1
        ∧ (tl[idx + 1]?).map TimelineEntry.type = some EntryType.brk then
      (((tl.set (idx - 1) { prevE with minutes := prevE.minutes + nextE.minutes }).eraseIdx
          (idx + 1)).eraseIdx idx)
    else tl.eraseIdx idx
  else tl    -- out of range; excluded by mod_drop's validation

/-- `mod_drop(cycle_num)`, from the loaded timer to the final persisted
state; `none` = rejected without saving. -/
def mod_drop (t : Timer) (cycle_num : Nat) : Option Timer :=
  if t.status ≠ Status.Stopped then none
  else if cycle_num < 1 ∨ cycle_num > t.timeline.length then none
  else some { t with timeline := mod_drop_timeline t.timeline (cycle_num - 1) }

/-- The commands `main()` dispatches to (constructors carry the raw
argument strings handed to the corresponding function). -/
inductive Cmd where
  | check
  | startCmd (arg : Option String)
  | stopCmd
  | pauseCmd
  | logCmd (arg : Option String)
  | modList
  | modDrop (n : String)
  | modStart (op time : String)
  | modDuration (n op time : String)
  | modUsage
  | nextCmd
  | resetCmd
  | restartCmd (arg : Option String)
  | newCmd
  | removeCmd
  | statusCmd
  | modeShow
  | modeSet (m : String)
  | helpCmd
  | reportCmd
  | debugCmd
  | invalid
deriving DecidableEq

/-- `main()`'s dispatch over `sys.argv[1:]`: no arguments runs `check`;
an unrecognised first argument prints "Invalid command.". -/
def dispatch (args : List String) : Cmd :=
  match args with
  | [] => Cmd.check
  | cmd :: rest =>
    match cmd with
    | "start" => Cmd.startCmd rest.head?
    | "stop" => Cmd.stopCmd
    | "pause" => Cmd.pauseCmd
    | "check" => Cmd.check
    | "log" => Cmd.logCmd rest.head?
    | "mod" =>
      match rest with
      | [] => Cmd.modList
      | [n, "drop"] => Cmd.modDrop n
      | ["start", op, time] => Cmd.modStart op time
      | [n, op, time] => Cmd.modDuration n op time
      | _ => Cmd.modUsage
    | "next" => Cmd.nextCmd
    | "reset" => Cmd.resetCmd
    | "restart" => Cmd.restartCmd rest.head?
    | "new" => Cmd.newCmd
    | "remove" => Cmd.removeCmd
    | "status" => Cmd.statusCmd
    | "mode" =>
      match rest with
      | [] => Cmd.modeShow
      | m :: _ => Cmd.modeSet m
    | "help" => Cmd.helpCmd
    | "report" => Cmd.reportCmd
    | "debug" => Cmd.debugCmd
    | _ => Cmd.invalid

/-! ### Helper lemmas -/

/-- `List.eraseIdx` past a left append segment. -/
theorem list_eraseIdx_append_add {α : Type} (l₁ l₂ : List α) (n : Nat) :
    (l₁ ++ l₂).eraseIdx (l₁.length + n) = l₁ ++ l₂.eraseIdx n := by
  induction l₁ with
  | nil => simp
  | cons x xs ih =>
    have h : (x :: xs).length + n = (xs.length + n) + 1 := by simp; omega
    simp only [List.cons_append, h, List.eraseIdx_cons_succ, ih]

/-! ### C1 -/

/-- C1, counterexample: the claim says the program accepts top-level CLI
commands `add <time>` and `sub <time>`; in fact `main()` has no such cases
and both invocations fall through to the "Invalid command." branch. -/
theorem c1_counterexample :
    dispatch ["add", "30"] = Cmd.invalid ∧ dispatch ["sub", "30"] = Cmd.invalid := by
  decide

/-- C1 (amended): the CLI provides no top-level `add`/`sub` commands;
`wt add ...` and `wt sub ...` always dispatch to the invalid-command
branch, whatever the remaining arguments. -/
theorem c1_amended_no_add_sub_commands (rest : List String) :
    dispatch ("add" :: rest) = Cmd.invalid ∧ dispatch ("sub" :: rest) = Cmd.invalid :=
  ⟨rfl, rfl⟩

/-! ### C2 -/

/-- C2: stopping while `Running` or `Paused` appends a Work entry
`{minutes = max 0 (total_elapsed - total_paused), paused_minutes =
total_paused, total_minutes = total_elapsed}` where `total_elapsed =
now - cycle_start` and `total_paused` is `paused_minutes` plus, if
`Paused`, the minutes since the pause began; it sets `stop_marker = now`,
clears `segment_marker`/`cycle_start`, resets `paused_minutes` to 0 and
sets the status to `Stopped`. -/
theorem c2_stop_spec (t : Timer) (now cs ps : Int) :
    (t.status = Status.Running → t.cycle_start_datetime_str = some cs →
      stop now t = some { t with
        timeline := t.timeline ++
          [{ type := EntryType.work,
             minutes := max 0 (delta_minutes cs now - t.paused_minutes),
             paused_minutes := t.paused_minutes,
             total_minutes := delta_minutes cs now }],
        stop_datetime_str := some now,
        start_datetime_str := none,
        cycle_start_datetime_str := none,
        paused_minutes := 0,
        status := Status.Stopped })
    ∧ (t.status = Status.Paused → t.cycle_start_datetime_str = some cs →
        t.start_datetime_str = some ps →
      stop now t = some { t with
        timeline := t.timeline ++
          [{ type := EntryType.work,
             minutes := max 0 (delta_minutes cs now -
               (t.paused_minutes + delta_minutes ps now)),
             paused_minutes := t.paused_minutes + delta_minutes ps now,
             total_minutes := delta_minutes cs now }],
        stop_datetime_str := some now,
        start_datetime_str := none,
        cycle_start_datetime_str := none,
        paused_minutes := 0,
        status := Status.Stopped }) := by
  constructor
  · intro h1 h2
    simp [stop, h1, h2]
    split <;> omega
  · intro h1 h2 h3
    simp [stop, h1, h2, h3]
    split <;> omega

/-- A running timer: cycle started at 0, 5 minutes of pause so far. -/
def c2RunTimer : Timer :=
  { status := Status.Running, start_datetime_str := some 30,
    paused_minutes := 5, day_start := some 0,
    cycle_start_datetime_str := some 0 }

/-- C2, witness: stopping `c2RunTimer` at minute 50 records
`{work, 45, 5, 50}` and resets the open-cycle fields. -/
theorem c2_stop_spec_witness :
    stop 50 c2RunTimer = some { c2RunTimer with
      timeline := [{ type := EntryType.work, minutes := 45,
                     paused_minutes := 5, total_minutes := 50 }],
      stop_datetime_str := some 50,
      start_datetime_str := none,
      cycle_start_datetime_str := none,
      paused_minutes := 0,
      status := Status.Stopped } := by
  rw [(c2_stop_spec c2RunTimer 50 0 0).1 rfl rfl]
  decide

/-! ### C10 -/

/-- C10: `next` while `Stopped` still appends a zero-minute Break, clears
`stop_datetime_str` without computing the break elapsed since the last
stop, sets `cycle_start = segment_marker = now`, `paused_minutes = 0` and
status `Running`; no Work entry is appended (the inner `stop()` is a
message-only no-op). -/
theorem c10_next_from_stopped (now : Int) (t : Timer)
    (hst : t.status = Status.Stopped) :
    next_timer now t = some { t with
      timeline := t.timeline ++
        [{ type := EntryType.brk, minutes := 0, paused_minutes := 0, total_minutes := 0 }],
      stop_datetime_str := none,
      start_datetime_str := some now,
      cycle_start_datetime_str := some now,
      paused_minutes := 0,
      status := Status.Running } := by
  simp [next_timer, stop, hst]

/-- A stopped timer with a pending `stop_datetime_str` and one work cycle. -/
def c10StoppedTimer : Timer :=
  { status := Status.Stopped, stop_datetime_str := some 7,
    timeline := [{ type := EntryType.work, minutes := 45,
                   paused_minutes := 5, total_minutes := 50 }],
    day_start := some 0 }

/-- C10, witness: `next` at minute 60 on `c10StoppedTimer` appends only a
0-minute break (not the 53-minute gap since the stop at minute 7) and
opens a running cycle at 60. -/
theorem c10_next_from_stopped_witness :
    next_timer 60 c10StoppedTimer = some { c10StoppedTimer with
      timeline := [{ type := EntryType.work, minutes := 45,
                     paused_minutes := 5, total_minutes := 50 },
                   { type := EntryType.brk, minutes := 0,
                     paused_minutes := 0, total_minutes := 0 }],
      stop_datetime_str := none,
      start_datetime_str := some 60,
      cycle_start_datetime_str := some 60,
      paused_minutes := 0,
      status := Status.Running } := by
  rw [c10_next_from_stopped 60 c10StoppedTimer rfl]
  decide

/-! ### C5 and C6: mod drop -/

/-- Generic list computation behind the drop-merge: set position
`idx - 1`, then pop `idx + 1`, then pop `idx`, at `idx = pre.length + 1`
inside `pre ++ x :: y :: z :: post`. -/
theorem list_set_erase2_merge {α : Type} (pre post : List α) (x y z c : α) :
    (((pre ++ x :: y :: z :: post).set (pre.length + 1 - 1) c).eraseIdx
        (pre.length + 1 + 1)).eraseIdx (pre.length + 1)
      = pre ++ c :: post := by
  have h1 : (pre ++ x :: y :: z :: post).set (pre.length + 1 - 1) c
      = pre ++ c :: y :: z :: post := by
    simp
  have h2 : (pre ++ c :: y :: z :: post).eraseIdx (pre.length + 1 + 1)
      = pre ++ c :: y :: post := by
    have h := list_eraseIdx_append_add pre (c :: y :: z :: post) 2
    have ha : pre.length + 1 + 1 = pre.length + 2 := rfl
    rw [ha, h]
    rfl
  have h3 : (pre ++ c :: y :: post).eraseIdx (pre.length + 1)
      = pre ++ c :: post := by
    have h := list_eraseIdx_append_add pre (c :: y :: post) 1
    rw [h]
    rfl
  rw [h1, h2, h3]

/-- The drop-merge list surgery on a break flanked by two work entries:
the previous work entry's `minutes` becomes the sum and the break and the
following work entry disappear.  Note the merged entry keeps its other
fields (in particular `total_minutes`) unchanged. -/
theorem mod_drop_timeline_merge (pre post : List TimelineEntry) (w1 b w2 : TimelineEntry)
    (hw1 : w1.type = EntryType.work) (hb : b.type = EntryType.brk)
    (hw2 : w2.type = EntryType.work) :
    mod_drop_timeline (pre ++ w1 :: b :: w2 :: post) (pre.length + 1)
      = pre ++ { w1 with minutes := w1.minutes + w2.minutes } :: post := by
  have hidx : (pre ++ w1 :: b :: w2 :: post)[pre.length + 1]? = some b := by
    rw [List.getElem?_append_right (by omega)]
    simp
  have hprev : (pre ++ w1 :: b :: w2 :: post)[pre.length + 1 - 1]? = some w1 := by
    rw [Nat.add_sub_cancel, List.getElem?_append_right (by omega)]
    simp
  have hnext : (pre ++ w1 :: b :: w2 :: post)[pre.length + 1 + 1]? = some w2 := by
    rw [List.getElem?_append_right (by omega)]
    have ha : pre.length + 1 + 1 - pre.length = 2 := by omega
    rw [ha]
    simp
  have hcond : 0 < pre.length + 1
      ∧ ((pre ++ w1 :: b :: w2 :: post)[pre.length + 1 - 1]?).map TimelineEntry.type
          = some EntryType.work
      ∧ pre.length + 1 < (pre ++ w1 :: b :: w2 :: post).length - 1
      ∧ ((pre ++ w1 :: b :: w2 :: post)[pre.length + 1 + 1]?).map TimelineEntry.type
          = some EntryType.work := by
    refine ⟨by omega, ?_, ?_, ?_⟩
    · rw [hprev]; simp [hw1]
    · simp only [List.length_append, List.length_cons]; omega
    · rw [hnext]; simp [hw2]
  rw [mod_drop_timeline]
  rw [if_pos (by rw [hidx]; simp [hb]), if_pos hcond, hprev, hnext]
  simp only [Option.getD_some]
  exact list_set_erase2_merge pre post w1 b w2
    { w1 with minutes := w1.minutes + w2.minutes }

/-- C5: dropping a Break flanked by Work entries (1-based index
`pre.length + 2`) merges the two Work entries: the first Work entry's
`minutes` becomes the sum, the Break and the second Work entry are
removed, and the timeline shrinks by two entries. -/
theorem c5_drop_merge_spec (t : Timer) (pre post : List TimelineEntry)
    (w1 b w2 : TimelineEntry)
    (hst : t.status = Status.Stopped)
    (htl : t.timeline = pre ++ w1 :: b :: w2 :: post)
    (hw1 : w1.type = EntryType.work) (hb : b.type = EntryType.brk)
    (hw2 : w2.type = EntryType.work) :
    mod_drop t (pre.length + 2)
      = some { t with
          timeline := pre ++ { w1 with minutes := w1.minutes + w2.minutes } :: post }
    ∧ (pre ++ { w1 with minutes := w1.minutes + w2.minutes } :: post).length + 2
      = t.timeline.length := by
  constructor
  · rw [mod_drop,
      if_neg (show ¬ (t.status ≠ Status.Stopped) by simp [hst]),
      if_neg (show ¬ (pre.length + 2 < 1 ∨ pre.length + 2 > t.timeline.length) by
        rw [htl]; simp only [List.length_append, List.length_cons]; omega)]
    rw [htl]
    have ha : pre.length + 2 - 1 = pre.length + 1 := by omega
    rw [ha, mod_drop_timeline_merge pre post w1 b w2 hw1 hb hw2]
  · rw [htl]
    simp only [List.length_append, List.length_cons]
    omega

/-- The spec's drop-merge example: `[Work 30, Break 10, Work 20]`. -/
def c5DropTimer : Timer :=
  { status := Status.Stopped,
    timeline := [{ type := EntryType.work, minutes := 30, paused_minutes := 0, total_minutes := 30 },
                 { type := EntryType.brk, minutes := 10 },
                 { type := EntryType.work, minutes := 20, paused_minutes := 0, total_minutes := 20 }] }

/-- C5, witness: `drop(2)` on `[Work 30, Break 10, Work 20]` yields
`[Work 50]`; the length goes from 3 to 1. -/
theorem c5_drop_merge_spec_witness :
    mod_drop c5DropTimer 2
      = some { c5DropTimer with
          timeline := [{ type := EntryType.work, minutes := 50,
                         paused_minutes := 0, total_minutes := 30 }] }
    ∧ ([{ type := EntryType.work, minutes := 50, paused_minutes := 0,
          total_minutes := 30 }] : List TimelineEntry).length + 2
        = c5DropTimer.timeline.length := by
  have h := c5_drop_merge_spec c5DropTimer [] []
    { type := EntryType.work, minutes := 30, paused_minutes := 0, total_minutes := 30 }
    { type := EntryType.brk, minutes := 10 }
    { type := EntryType.work, minutes := 20, paused_minutes := 0, total_minutes := 20 }
    rfl rfl rfl rfl rfl
  exact ⟨h.1.trans (by decide), by decide⟩

/-- The same drop-merge input, for exhibiting the `total_minutes` slip. -/
def c6DropTimer : Timer :=
  { status := Status.Stopped,
    timeline := [{ type := EntryType.work, minutes := 30, paused_minutes := 0, total_minutes := 30 },
                 { type := EntryType.brk, minutes := 10 },
                 { type := EntryType.work, minutes := 20, paused_minutes := 0, total_minutes := 20 }],
    day_start := some 0 }

/-- C6: the invariant `total_minutes = minutes + paused_minutes` holds for
every Work entry of `c6DropTimer` before the edit, but the drop-merge
leaves the merged Work entry with `minutes = 50` and the stale
`total_minutes = 30` (`mod_drop` never recomputes `total_minutes`, unlike
`mod_duration`), so the invariant is violated after the edit. -/
theorem c6_drop_merge_total_minutes_bug :
    (∀ e ∈ c6DropTimer.timeline, e.type = EntryType.work →
        e.total_minutes = e.minutes + e.paused_minutes)
    ∧ ∃ t2, mod_drop c6DropTimer 2 = some t2
        ∧ t2.timeline = [{ type := EntryType.work, minutes := 50,
                           paused_minutes := 0, total_minutes := 30 }]
        ∧ ¬ (∀ e ∈ t2.timeline, e.type = EntryType.work →
              e.total_minutes = e.minutes + e.paused_minutes) := by
  refine ⟨by decide, ⟨_, rfl, by decide, by decide⟩⟩

/-! ### C7 -/

/-- C7: `mod <n> add|sub <time>` is rejected without saving (result
`none`, persisted state untouched) when the 1-based index is out of range
or when `sub` would drive the entry's minutes negative; whenever it
succeeds, a resulting Work entry at the targeted position satisfies
`total_minutes = minutes + paused_minutes`. -/
theorem c7_mod_duration_spec (t : Timer) (n : Nat) (op : Op) (s : String)
    (hst : t.status = Status.Stopped) :
    ((n < 1 ∨ n > t.timeline.length) → mod_duration t n op s = none)
    ∧ (∀ e, t.timeline[n - 1]? = some e →
        op = Op.sub → e.minutes - string_time_to_minutes s < 0 →
          mod_duration t n op s = none)
    ∧ (∀ t2, mod_duration t n op s = some t2 →
        ∀ e2, t2.timeline[n - 1]? = some e2 → e2.type = EntryType.work →
          e2.total_minutes = e2.minutes + e2.paused_minutes) := by
  refine ⟨?_, ?_, ?_⟩
  · intro h
    rw [mod_duration, if_neg (show ¬ (t.status ≠ Status.Stopped) by simp [hst]),
      if_pos h]
  · intro e he hop hneg
    subst hop
    rw [mod_duration, if_neg (show ¬ (t.status ≠ Status.Stopped) by simp [hst])]
    by_cases hr : n < 1 ∨ n > t.timeline.length
    · rw [if_pos hr]
    · rw [if_neg hr]
      by_cases hd : pyIsDigit s = false
      · rw [if_pos hd]
      · rw [if_neg hd]
        simp only [he]
        rw [if_pos hneg]
  · intro t2 h2 e2 he2 hw
    simp [mod_duration, hst] at h2
    obtain ⟨⟨hn0, hnle⟩, hdig, hm⟩ := h2
    cases hmem : t.timeline[n - 1]? with
    | none =>
      rw [hmem] at hm
      cases op <;> simp at hm
    | some e =>
      have hlt : n - 1 < t.timeline.length := by
        rw [List.getElem?_eq_some] at hmem
        exact hmem.1
      rw [hmem] at hm
      cases op with
      | add =>
        simp only [Option.some.injEq] at hm
        subst hm
        simp only at he2
        rw [List.getElem?_set_self hlt] at he2
        by_cases hty : e.type = EntryType.work
        · rw [if_pos hty] at he2
          injection he2 with he2
          subst he2
          rfl
        · rw [if_neg hty] at he2
          injection he2 with he2
          subst he2
          exact absurd hw hty
      | sub =>
        by_cases hneg : e.minutes < string_time_to_minutes s
        · simp [hneg] at hm
        · simp only [if_neg hneg, Option.some.injEq] at hm
          subst hm
          simp only at he2
          rw [List.getElem?_set_self hlt] at he2
          by_cases hty : e.type = EntryType.work
          · rw [if_pos hty] at he2
            injection he2 with he2
            subst he2
            rfl
          · rw [if_neg hty] at he2
            injection he2 with he2
            subst he2
            exact absurd hw hty

/-- A stopped timer with a single `Work 10` entry. -/
def c7Timer : Timer :=
  { status := Status.Stopped,
    timeline := [{ type := EntryType.work, minutes := 10,
                   paused_minutes := 0, total_minutes := 10 }] }

/-- C7, witness: index 5 of a 1-entry timeline is rejected, and the
spec's "resize floor" example `sub(1, 15)` on `Work 10` is rejected. -/
theorem c7_mod_duration_spec_witness :
    mod_duration c7Timer 5 Op.add "5" = none
    ∧ mod_duration c7Timer 1 Op.sub "15" = none := by
  constructor
  · exact (c7_mod_duration_spec c7Timer 5 Op.add "5" rfl).1 (by decide)
  · exact (c7_mod_duration_spec c7Timer 1 Op.sub "15" rfl).2.1
      { type := EntryType.work, minutes := 10, paused_minutes := 0, total_minutes := 10 }
      rfl rfl (by decide)

/-! ### C8 -/

/-- A stopped timer used to show the `mod` path skips the minute-component
validation. -/
def c8Timer : Timer :=
  { status := Status.Stopped,
    timeline := [{ type := EntryType.work, minutes := 10,
                   paused_minutes := 0, total_minutes := 10 }] }

/-- C8, counterexample: a length-1 time value is parsed as MINUTES, not as
the hours the spec's `H` pattern describes (`"5"` gives 5, not 300); and
`mod <n> add|sub <time>` never applies the 59-minute validation: `"99"`
(minute component 99 > 59, rejected by `validate_timestring`) is accepted
and adds 99 minutes. -/
theorem c8_counterexample :
    string_time_to_minutes "5" = 5
    ∧ spec_time_to_minutes "5" = 300
    ∧ string_time_to_minutes "5" ≠ spec_time_to_minutes "5"
    ∧ validate_timestring "99" = false
    ∧ mod_duration c8Timer 1 Op.add "99"
        = some { c8Timer with
            timeline := [{ type := EntryType.work, minutes := 109,
                           paused_minutes := 0, total_minutes := 109 }] } := by
  refine ⟨by decide, by decide, by decide, by decide, by decide⟩

/-- C8 (amended): start/restart validate their time value: an invalid
string makes `start` quit with the persisted state unchanged, and
`validate_timestring` accepts exactly the 1-4 digit strings whose trailing
two-digit minute component (only checked when the length is at least 2) is
at most 59.  Length-1 and length-2 values are interpreted as MINUTES (not
hours for length 1 as the spec's `H` pattern says).  The `mod` commands
apply none of this validation (digit strings only): `"99"` is accepted. -/
theorem c8_amended_time_values (s : String) (now : Int) (f : Option Timer) :
    (validate_timestring s = false → start_cmd now (some s) f = f)
    ∧ (validate_timestring s = true ↔
        (1 ≤ s.toList.length ∧ s.toList.length ≤ 4
          ∧ s.toList.all Char.isDigit = true
          ∧ (2 ≤ s.toList.length →
              digitsVal (s.toList.drop (s.toList.length - 2)) ≤ 59)))
    ∧ (s.toList.length = 1 ∨ s.toList.length = 2 →
        string_time_to_minutes s = (digitsVal s.toList : Int))
    ∧ (mod_duration c8Timer 1 Op.add "99").isSome = true := by
  refine ⟨?_, ?_, ?_, by decide⟩
  · intro hv
    simp [start_cmd, hv]
  · rw [validate_timestring]
    by_cases h1 : s.toList.length < 1 ∨ s.toList.length > 4
        ∨ ¬ s.toList.all Char.isDigit = true
    · rw [if_pos h1]
      simp only [Bool.false_eq_true, false_iff]
      intro ⟨ha, hb, hc, _⟩
      rcases h1 with h | h | h <;> [omega; omega; exact h hc]
    · rw [if_neg h1]
      push_neg at h1
      by_cases h2 : 2 ≤ s.toList.length
          ∧ 59 < digitsVal (s.toList.drop (s.toList.length - 2))
      · rw [if_pos h2]
        simp only [Bool.false_eq_true, false_iff]
        intro ⟨_, _, _, hd⟩
        exact absurd (hd h2.1) (by omega)
      · rw [if_neg h2]
        simp only [true_iff]
        push_neg at h2
        exact ⟨by omega, by omega, h1.2.2, fun hl => by
          have := h2 hl; omega⟩
  · intro hlen
    simp only [string_time_to_minutes]
    rcases hlen with h | h <;> rw [h]

/-- C8, witness: `"99"` fails validation, so `start 99` leaves the
persisted state unchanged; `"45"` is a two-digit value parsed as 45
minutes. -/
theorem c8_amended_time_values_witness :
    start_cmd 0 (some "99") (some freshTimer) = some freshTimer
    ∧ string_time_to_minutes "45" = (45 : Int) := by
  constructor
  · exact (c8_amended_time_values "99" 0 (some freshTimer)).1 (by decide)
  · exact ((c8_amended_time_values "45" 0 none).2.2.1 (by decide)).trans (by decide)

/-! ### C9 -/

/-- C9: with no persisted state file, `start` first creates a fresh
Stopped timer with an empty timeline (via `reset()`) and then performs the
start transition on it (ending `Running`); `stop`, `pause` and `check`
fail in `load()` with the "No timer exists." message and mutate nothing. -/
theorem c9_no_file_spec (now : Int) (s : String)
    (hs : validate_timestring s = true) :
    start_cmd now none none = some (start_loaded now none freshTimer)
    ∧ start_cmd now (some s) none = some (start_loaded now (some s) freshTimer)
    ∧ freshTimer.status = Status.Stopped
    ∧ freshTimer.timeline = []
    ∧ (start_loaded now none freshTimer).status = Status.Running
    ∧ stop_cmd now none = Except.error "No timer exists."
    ∧ pause_cmd now none = Except.error "No timer exists."
    ∧ check_cmd now none = Except.error "No timer exists." := by
  refine ⟨rfl, ?_, rfl, rfl, rfl, rfl, rfl, rfl⟩
  simp [start_cmd, hs]

/-- C9, witness: the no-file behavior at `now = 0` with time string
`"30"`. -/
theorem c9_no_file_spec_witness :
    start_cmd 0 (some "30") none = some (start_loaded 0 (some "30") freshTimer)
    ∧ stop_cmd 0 none = Except.error "No timer exists." := by
  have h := c9_no_file_spec 0 "30" (by decide)
  exact ⟨h.2.1, h.2.2.2.2.2.1⟩

/-! ### start: backdate behavior (C3, C4) -/

/-- Setting the position right after `l1` in `l1 ++ [b]`. -/
theorem list_set_append_len {α : Type} (l1 : List α) (b c : α) :
    (l1 ++ [b]).set l1.length c = l1 ++ [c] := by
  simp

/-- Rejected backdate on a later cycle: when `Stopped` with a pending
`stop_datetime_str` and a nonempty timeline, a backdate larger than the
gap since the stop is rejected before any mutation, leaving the loaded
timer unchanged. -/
theorem start_loaded_reject_later (now m : Int) (t : Timer) (s : String)
    (hst : t.status = Status.Stopped)
    (hsm : t.stop_datetime_str = some m)
    (hne : t.timeline.length ≠ 0)
    (hrej : delta_minutes m now < string_time_to_minutes s) :
    start_loaded now (some s) t = t := by
  simp [start_loaded, hst, hsm, hne, hrej]

/-- Accepted backdate on a later cycle: when `Stopped` with a pending
`stop_datetime_str = m` and a nonempty timeline, `start Δ` appends the
Break `now - m`, then reduces it by `Δ` and backdates
`start_datetime_str`/`cycle_start_datetime_str` to `now - Δ`. -/
theorem start_loaded_backdate_later (now m : Int) (t : Timer) (s : String)
    (hst : t.status = Status.Stopped)
    (hsm : t.stop_datetime_str = some m)
    (hne : t.timeline.length ≠ 0)
    (hok : ¬ delta_minutes m now < string_time_to_minutes s) :
    start_loaded now (some s) t = { t with
      timeline := t.timeline ++
        [{ type := EntryType.brk,
           minutes := delta_minutes m now - string_time_to_minutes s }],
      stop_datetime_str := none,
      start_datetime_str := some (now - string_time_to_minutes s),
      day_start := if t.day_start = none then some now else t.day_start,
      cycle_start_datetime_str := some (now - string_time_to_minutes s),
      status := Status.Running } := by
  rcases hd : t.day_start with _ | d <;>
    simp [start_loaded, start_loaded.st6, hst, hsm, hne, hok, hd,
      List.getLast?_concat, list_set_append_len]

/-- First cycle of the timeline: the start itself is persisted (line 223
of the source) BEFORE the backdate is validated, so when the backdate is
rejected (`Δ = 0`, i.e. `now - Δ` not strictly before `now`) the persisted
state is the started, un-backdated timer - not the original one. -/
theorem start_loaded_first_reject (now : Int) (t : Timer) (s : String)
    (hst : t.status = Status.Stopped)
    (hsm : t.stop_datetime_str = none)
    (htl : t.timeline = [])
    (hday : t.day_start = none)
    (hs0 : string_time_to_minutes s = 0) :
    start_loaded now (some s) t = { t with
      status := Status.Running,
      start_datetime_str := some now,
      stop_datetime_str := none,
      day_start := some now,
      cycle_start_datetime_str := some now } := by
  simp [start_loaded, start_loaded.st6, hst, hsm, htl, hday, hs0]

/-- Backdate while `Paused` (resuming): the argument is NOT rejected; with
a trailing Break entry it reduces that Break by `Δ` and backdates
`start_datetime_str`/`cycle_start_datetime_str` to `now - Δ`, on top of
the normal pause accounting. -/
theorem start_loaded_backdate_paused (now ps : Int) (t : Timer) (s : String)
    (pre : List TimelineEntry) (lastB : TimelineEntry)
    (hst : t.status = Status.Paused)
    (hps : t.start_datetime_str = some ps)
    (hsm : t.stop_datetime_str = none)
    (htl : t.timeline = pre ++ [lastB])
    (hb : lastB.type = EntryType.brk)
    (hok : ¬ lastB.minutes - string_time_to_minutes s < 0) :
    start_loaded now (some s) t = { t with
      paused_minutes := t.paused_minutes + delta_minutes ps now,
      timeline := pre ++ [{ lastB with minutes := lastB.minutes - string_time_to_minutes s }],
      stop_datetime_str := none,
      start_datetime_str := some (now - string_time_to_minutes s),
      day_start := if t.day_start = none then some now else t.day_start,
      cycle_start_datetime_str := some (now - string_time_to_minutes s),
      status := Status.Running } := by
  rcases hd : t.day_start with _ | d <;>
    simp [start_loaded, start_loaded.st6, hst, hps, hsm, htl, hb, hok, hd,
      List.getLast?_concat, list_set_append_len]

/-- C3, counterexample: the backdated timestamp `now - 0` is not strictly
before `now`, so `start 0` on the first cycle of the timeline is rejected
("Cannot backdate start that far."), yet the persisted state is NOT
unchanged: the start transition was already saved before the backdate
validation ran, so the persisted timer is Running at `now`. -/
theorem c3_counterexample :
    ((1000 : Int) ≤ 1000 - string_time_to_minutes "0")
    ∧ start_cmd 1000 (some "0") (some freshTimer)
        = some { freshTimer with
            status := Status.Running,
            start_datetime_str := some 1000,
            day_start := some 1000,
            cycle_start_datetime_str := some 1000 }
    ∧ start_cmd 1000 (some "0") (some freshTimer) ≠ some freshTimer := by
  refine ⟨by decide, by decide, by decide⟩

/-- C3 (amended): a command rejected by the time-string validation or by
the later-cycle backdate validation leaves the persisted state unchanged;
but `start Δ` on the first cycle of the timeline persists the started,
un-backdated timer BEFORE validating the backdate, so when the backdate is
rejected (`Δ = 0`) the persisted state is the started timer, not the
original state. -/
theorem c3_amended_rejection_persistence (now m : Int) (t : Timer) (s : String) :
    (validate_timestring s = false → start_cmd now (some s) (some t) = some t)
    ∧ (t.status = Status.Stopped → t.stop_datetime_str = some m →
        t.timeline.length ≠ 0 → delta_minutes m now < string_time_to_minutes s →
        start_cmd now (some s) (some t) = some t)
    ∧ (t.status = Status.Stopped → t.stop_datetime_str = none →
        t.timeline = [] → t.day_start = none →
        validate_timestring s = true → string_time_to_minutes s = 0 →
        start_cmd now (some s) (some t)
          = some { t with
              status := Status.Running,
              start_datetime_str := some now,
              stop_datetime_str := none,
              day_start := some now,
              cycle_start_datetime_str := some now }) := by
  refine ⟨?_, ?_, ?_⟩
  · intro hv
    simp [start_cmd, hv]
  · intro hst hsm hne hrej
    by_cases hv : validate_timestring s
    · simp [start_cmd, hv, start_loaded_reject_later now m t s hst hsm hne hrej]
    · simp [start_cmd, hv]
  · intro hst hsm htl hday hv hs0
    simp [start_cmd, hv, start_loaded_first_reject now t s hst hsm htl hday hs0]

/-- A stopped later-cycle timer: one completed work cycle, stop at 100. -/
def c3LaterTimer : Timer :=
  { status := Status.Stopped, stop_datetime_str := some 100,
    timeline := [{ type := EntryType.work, minutes := 30,
                   paused_minutes := 5, total_minutes := 35 }],
    day_start := some 0 }

/-- C3, witness: at `now = 110` the 10-minute gap cannot absorb a
30-minute backdate, and the rejected command leaves the state file
unchanged; on the first cycle the rejected `start 0` persists the started
timer. -/
theorem c3_amended_rejection_persistence_witness :
    start_cmd 110 (some "30") (some c3LaterTimer) = some c3LaterTimer
    ∧ start_cmd 1000 (some "0") (some freshTimer)
        = some { freshTimer with
            status := Status.Running,
            start_datetime_str := some 1000,
            stop_datetime_str := none,
            day_start := some 1000,
            cycle_start_datetime_str := some 1000 } := by
  constructor
  · exact (c3_amended_rejection_persistence 110 100 c3LaterTimer "30").2.1
      rfl rfl (by decide) (by decide)
  · exact (c3_amended_rejection_persistence 1000 0 freshTimer "0").2.2
      rfl rfl rfl rfl (by decide) (by decide)

/-- A paused later-cycle timer: pause began at 100, trailing `Break 10`. -/
def c4PausedTimer : Timer :=
  { status := Status.Paused, start_datetime_str := some 100,
    stop_datetime_str := none, paused_minutes := 0,
    timeline := [{ type := EntryType.work, minutes := 30,
                   paused_minutes := 5, total_minutes := 35 },
                 { type := EntryType.brk, minutes := 10 }],
    day_start := some 0, cycle_start_datetime_str := some 90 }

/-- C4, counterexample: the backdate argument is not "only legal
immediately after a Stopped → Running transition": invoked while `Paused`
(a resume), `start 5` is accepted and applied - the trailing Break is
reduced from 10 to 5 and the cycle start is backdated to `now - 5`. -/
theorem c4_counterexample :
    c4PausedTimer.status = Status.Paused
    ∧ (start_cmd 110 (some "5") (some c4PausedTimer)).map Timer.timeline
        = some [{ type := EntryType.work, minutes := 30,
                  paused_minutes := 5, total_minutes := 35 },
                { type := EntryType.brk, minutes := 5 }]
    ∧ (start_cmd 110 (some "5") (some c4PausedTimer)).map Timer.cycle_start_datetime_str
        = some (some 105)
    ∧ (start_cmd 110 (some "5") (some c4PausedTimer)).map Timer.status
        = some Status.Running := by
  refine ⟨by decide, by decide, by decide, by decide⟩

/-- C4 (amended): on a later cycle while `Stopped`, `start Δ` requires
the Break about to be appended (`now - stop_marker`) to be at least `Δ`,
else it is rejected with no mutation; on success the appended Break's
minutes are reduced by `Δ` and `segment_marker`/`cycle_start` are set to
`now - Δ`.  The backdate argument is not restricted to `Stopped → Running`
transitions: while `Paused` with a trailing Break of at least `Δ` minutes
it likewise reduces that Break and backdates the markers. -/
theorem c4_amended_backdate_spec (now m : Int) (t : Timer) (s : String)
    (hst : t.status = Status.Stopped)
    (hsm : t.stop_datetime_str = some m)
    (hne : t.timeline.length ≠ 0)
    (hv : validate_timestring s = true) :
    (delta_minutes m now < string_time_to_minutes s →
      start_cmd now (some s) (some t) = some t)
    ∧ (¬ delta_minutes m now < string_time_to_minutes s →
        ∃ t2, start_cmd now (some s) (some t) = some t2
          ∧ t2.timeline = t.timeline ++
              [{ type := EntryType.brk,
                 minutes := delta_minutes m now - string_time_to_minutes s,
                 paused_minutes := 0, total_minutes := 0 }]
          ∧ t2.start_datetime_str = some (now - string_time_to_minutes s)
          ∧ t2.cycle_start_datetime_str = some (now - string_time_to_minutes s)
          ∧ t2.status = Status.Running)
    ∧ (∀ tp ps pre lastB, tp.status = Status.Paused →
        tp.start_datetime_str = some ps → tp.stop_datetime_str = none →
        tp.timeline = pre ++ [lastB] → lastB.type = EntryType.brk →
        ¬ lastB.minutes - string_time_to_minutes s < 0 →
        ∃ t2, start_cmd now (some s) (some tp) = some t2
          ∧ t2.timeline = pre ++
              [{ lastB with minutes := lastB.minutes - string_time_to_minutes s }]
          ∧ t2.cycle_start_datetime_str = some (now - string_time_to_minutes s)
          ∧ t2.status = Status.Running) := by
  refine ⟨?_, ?_, ?_⟩
  · intro hrej
    simp [start_cmd, hv, start_loaded_reject_later now m t s hst hsm hne hrej]
  · intro hok
    refine ⟨start_loaded now (some s) t, by simp [start_cmd, hv], ?_⟩
    rw [start_loaded_backdate_later now m t s hst hsm hne hok]
    exact ⟨rfl, rfl, rfl, rfl⟩
  · intro tp ps pre lastB hpst hpps hpsm hptl hpb hpok
    refine ⟨start_loaded now (some s) tp, by simp [start_cmd, hv], ?_⟩
    rw [start_loaded_backdate_paused now ps tp s pre lastB hpst hpps hpsm hptl hpb hpok]
    exact ⟨rfl, rfl, rfl⟩

/-- A stopped later-cycle timer, stop at 100, for the C4 witness. -/
def c4StoppedTimer : Timer :=
  { status := Status.Stopped, stop_datetime_str := some 100,
    timeline := [{ type := EntryType.work, minutes := 30,
                   paused_minutes := 5, total_minutes := 35 }],
    day_start := some 0 }

/-- C4, witness: `start 5` at `now = 120` with a stop at 100 appends a
Break of `20 - 5 = 15` minutes and backdates the markers to 115. -/
theorem c4_amended_backdate_spec_witness :
    ∃ t2, start_cmd 120 (some "5") (some c4StoppedTimer) = some t2
      ∧ t2.timeline = [{ type := EntryType.work, minutes := 30,
                         paused_minutes := 5, total_minutes := 35 },
                       { type := EntryType.brk, minutes := 15,
                         paused_minutes := 0, total_minutes := 0 }]
      ∧ t2.cycle_start_datetime_str = some 115
      ∧ t2.status = Status.Running := by
  obtain ⟨t2, h1, h2, h3, h4, h5⟩ :=
    (c4_amended_backdate_spec 120 100 c4StoppedTimer "5"
      rfl rfl (by decide) (by decide)).2.1 (by decide)
  exact ⟨t2, h1, by rw [h2]; decide, by rw [h4]; decide, h5⟩
